import Mathlib

/-!
Shallow embedding of `src/table.rs` (latex-rs tables module): cells, rows,
table kinds, tables with validated row insertion, and rendering to LaTeX
markup fragments. Definitions mirror the Rust source; theorems settle the
specification claims about them.
-/

/-- A cell in a table: `struct Cell { value: String }`. -/
structure Cell where
  value : String
deriving DecidableEq, Repr

/-- `impl Display for Cell`: writes the value unchanged. -/
def Cell.render (c : Cell) : String := c.value

/-- A row in a table: `struct Row { cells, is_header, is_first_header }`. -/
structure Row where
  cells : List Cell
  is_header : Bool
  is_first_header : Bool
deriving DecidableEq, Repr

/-- `Row::new()`: empty cells, both flags false (the `Default` derive). -/
def Row.new : Row := ⟨[], false, false⟩

/-- `Row::push_cell`: wraps `content` in a `Cell` and appends it. -/
def Row.push_cell (r : Row) (content : String) : Row :=
  { r with cells := r.cells ++ [⟨content⟩] }

/-- `impl Display for Row`: collect the cell values, join with `" & "`,
then append `" \\"` (space and two backslashes). -/
def Row.render (r : Row) : String :=
  let row := r.cells.map fun cell => cell.value
  let temp := String.intercalate " & " row
  temp ++ " \\\\"

/-- The kind of table: `enum TableKind`. -/
inductive TableKind where
  | Tabular
  | Tabularx
  | LongTable
  | XLTabular
deriving DecidableEq, Repr

/-- `TableKind::environment_name`. -/
def TableKind.environment_name : TableKind → String
  | .Tabular => "tabular"
  | .Tabularx => "tabularx"
  | .LongTable => "longtable"
  | .XLTabular => "xltabular"

/-- `enum TableError`. -/
inductive TableError where
  | WrongNumberOfColumns (provided required : Nat)
deriving DecidableEq, Repr

/-- `struct Table`. -/
structure Table where
  kind : TableKind
  rows : List Row
  table_width : String
  column_count : Nat
  column_types : String
deriving DecidableEq, Repr

/-- `Table::new`: empty rows, `column_count = column_types.chars().count()`
(Unicode scalar values; `String.length` in Lean counts `Char`s, which are
Unicode scalar values). -/
def Table.new (kind : TableKind) (table_width : String) (column_types : String) : Table :=
  { kind := kind
    rows := []
    table_width := table_width
    column_count := column_types.length
    column_types := column_types }

/-- `Table::push_row`: count the row's cells; on match append the row and
return the table, otherwise return `WrongNumberOfColumns(provided, required)`
leaving the table untouched. -/
def Table.push_row (t : Table) (row : Row) : Except TableError Table :=
  let provided_cells := row.cells.length
  if provided_cells = t.column_count then
    .ok { t with rows := t.rows ++ [row] }
  else
    .error (.WrongNumberOfColumns provided_cells t.column_count)

/-- A sequence of `push_row` calls on a Rust `&mut Table`: a failing call
leaves the table as it was (the `Err` branch does not touch `self`), a
successful call continues with the updated table. -/
def Table.pushRows (t : Table) (rs : List Row) : Table :=
  rs.foldl (fun acc r =>
    match acc.push_row r with
    | .ok t' => t'
    | .error _ => acc) t

/-- Modelled from the spec: the external document-assembly collaborator
(`Document` and its `preamble`, from the crate root, not under `src/`) —
"the document/preamble system that tracks package dependencies".
The preamble is modelled as the sequence of registered package names. -/
structure Preamble where
  packages : List String
deriving DecidableEq, Repr

/-- Modelled from the spec: `use_package` registers a package dependency
with the preamble; modelled as appending its name. -/
def Preamble.use_package (p : Preamble) (name : String) : Preamble :=
  { packages := p.packages ++ [name] }

/-- Modelled from the spec: a document holding a preamble. -/
structure Document where
  preamble : Preamble
deriving DecidableEq, Repr

/-- `Table::prepare_document`: `document.preamble.use_package("tabularx")`. -/
def Table.prepare_document (_t : Table) (document : Document) : Document :=
  { document with preamble := document.preamble.use_package "tabularx" }

/-- Spec-level join: cell texts separated by `" & "`, written by direct
recursion to compare with the source's use of `join`/`intercalate`. -/
def joinAmp : List String → String
  | [] => ""
  | [s] => s
  | s :: rest => s ++ " & " ++ joinAmp rest

/-- Tail form of the `" & "` join: the separator-prefixed continuation. -/
def ampTail : List String → String
  | [] => ""
  | a :: as => " & " ++ a ++ ampTail as

lemma intercalate_go_eq (as : List String) :
    ∀ acc : String, String.intercalate.go acc " & " as = acc ++ ampTail as := by
  induction as with
  | nil => intro acc; simp [String.intercalate.go, ampTail]
  | cons a as ih =>
    intro acc
    simp [String.intercalate.go, ampTail, ih, String.append_assoc]

lemma joinAmp_cons (a : String) (l : List String) :
    joinAmp (a :: l) = a ++ ampTail l := by
  induction l generalizing a with
  | nil => simp [joinAmp, ampTail]
  | cons b bs ih =>
    simp [joinAmp, ampTail, ih, String.append_assoc]

lemma intercalate_amp (l : List String) :
    String.intercalate " & " l = joinAmp l := by
  cases l with
  | nil => rfl
  | cons a as =>
    show String.intercalate.go a " & " as = joinAmp (a :: as)
    rw [intercalate_go_eq, joinAmp_cons]

lemma pushRows_cons (t : Table) (r : Row) (rs : List Row) :
    t.pushRows (r :: rs) =
      (match t.push_row r with | .ok t' => t' | .error _ => t).pushRows rs := rfl

lemma pushRows_column_count (rs : List Row) :
    ∀ t : Table, (t.pushRows rs).column_count = t.column_count := by
  induction rs with
  | nil => intro t; rfl
  | cons r rs ih =>
    intro t
    rw [pushRows_cons]
    by_cases h : r.cells.length = t.column_count
    · simp [Table.push_row, h, ih]
    · simp [Table.push_row, h, ih]

/-- Claim C1: pushing a row whose cell count differs from the table's column
count fails with exactly `WrongNumberOfColumns(provided, required)`, where
`provided` is the row's cell count and `required` is the table's column
count, and the table (as mutated through `&mut self`) is left unchanged. -/
theorem push_row_mismatch (t : Table) (r : Row)
    (h : r.cells.length ≠ t.column_count) :
    t.push_row r =
      .error (.WrongNumberOfColumns r.cells.length t.column_count) ∧
    t.pushRows [r] = t := by
  constructor
  · simp [Table.push_row, h]
  · rw [pushRows_cons]
    simp [Table.push_row, h, Table.pushRows]

/-- Claim C1 witness: the source's own test case — a 2-column table rejects a
1-cell row with `WrongNumberOfColumns(1, 2)` and keeps its rows. -/
theorem push_row_mismatch_witness :
    (Table.new .Tabularx "textwidth" "lX").push_row (Row.new.push_cell "row 1")
      = .error (.WrongNumberOfColumns 1 2) ∧
    (Table.new .Tabularx "textwidth" "lX").pushRows [Row.new.push_cell "row 1"]
      = Table.new .Tabularx "textwidth" "lX" :=
  push_row_mismatch (Table.new .Tabularx "textwidth" "lX")
    (Row.new.push_cell "row 1") (by decide)

/-- Claim C2: pushing a row whose cell count equals the table's column count
succeeds, appending the row unchanged at the end of `rows` (all earlier rows
and other fields preserved), which grows `rows` by exactly one. -/
theorem push_row_match (t : Table) (r : Row)
    (h : r.cells.length = t.column_count) :
    t.push_row r = .ok { t with rows := t.rows ++ [r] } ∧
    (t.rows ++ [r]).length = t.rows.length + 1 := by
  refine ⟨?_, by simp⟩
  simp [Table.push_row, h]

/-- Claim C2 witness: the source's own test case — a 1-column table accepts a
1-cell row, ending with exactly that row stored. -/
theorem push_row_match_witness :
    (Table.new .Tabularx "textwidth" "X").push_row ⟨[⟨"para"⟩], false, false⟩
      = .ok { Table.new .Tabularx "textwidth" "X" with
                rows := [⟨[⟨"para"⟩], false, false⟩] } ∧
    (([] : List Row) ++ [(⟨[⟨"para"⟩], false, false⟩ : Row)]).length
      = ([] : List Row).length + 1 :=
  push_row_match (Table.new .Tabularx "textwidth" "X")
    ⟨[⟨"para"⟩], false, false⟩ (by decide)

/-- Claim C3: `Table.new` sets `column_count` to the number of Unicode scalar
values of `column_types`, and no sequence of `push_row` calls (successful or
failing) ever changes it — `column_count()` always returns that value. -/
theorem column_count_spec (kind : TableKind) (tw ct : String) (rs : List Row) :
    (Table.new kind tw ct).column_count = ct.length ∧
    ((Table.new kind tw ct).pushRows rs).column_count = ct.length := by
  refine ⟨rfl, ?_⟩
  rw [pushRows_column_count]
  rfl

/-- Claim C4: a row renders as its cell values joined by the 3-character
separator `" & "` followed by the terminator `" \\"` (space then two
backslashes); a zero-cell row renders to exactly the terminator, and the row
`["a","b","c"]` renders to `"a & b & c \\"`. -/
theorem row_render_spec :
    (∀ r : Row, r.render = joinAmp (r.cells.map Cell.render) ++ " \\\\") ∧
    (∀ b1 b2 : Bool, (Row.mk [] b1 b2).render = " \\\\") ∧
    (∀ b1 b2 : Bool,
      (Row.mk [⟨"a"⟩, ⟨"b"⟩, ⟨"c"⟩] b1 b2).render = "a & b & c \\\\") := by
  refine ⟨?_, fun b1 b2 => rfl, fun b1 b2 => rfl⟩
  intro r
  simp only [Row.render, intercalate_amp]
  rfl

/-- Claim C5: `environment_name` is total over the closed 4-variant
enumeration and maps each variant to its exact lowercase string. -/
theorem environment_name_spec :
    TableKind.Tabular.environment_name = "tabular" ∧
    TableKind.Tabularx.environment_name = "tabularx" ∧
    TableKind.LongTable.environment_name = "longtable" ∧
    TableKind.XLTabular.environment_name = "xltabular" :=
  ⟨rfl, rfl, rfl, rfl⟩

/-- Claim C6: rendering a cell returns its stored value unchanged — no
escaping or transformation (and, being a total pure function, never fails). -/
theorem cell_render_id (c : Cell) : c.render = c.value := rfl

/-- Claim C7: `push_cell` appends exactly one cell holding `content` at the
end of the row's cells and leaves the prior cells (in order) and both header
flags unchanged. -/
theorem push_cell_spec (r : Row) (content : String) :
    (r.push_cell content).cells = r.cells ++ [⟨content⟩] ∧
    (r.push_cell content).is_header = r.is_header ∧
    (r.push_cell content).is_first_header = r.is_first_header :=
  ⟨rfl, rfl, rfl⟩

/-- Claim C8: `prepare_document` registers exactly the package `"tabularx"`
with the document's preamble, unconditionally — the result is the same for
every table, whatever its kind. -/
theorem prepare_document_spec (t : Table) (d : Document) :
    (t.prepare_document d).preamble.packages
      = d.preamble.packages ++ ["tabularx"] ∧
    ∀ t' : Table, t.prepare_document d = t'.prepare_document d :=
  ⟨rfl, fun _ => rfl⟩

/-- Claim C9: row rendering depends only on the cells — two rows with equal
cell lists render identically whatever their header flags. -/
theorem row_render_flags_independent (r1 r2 : Row) (h : r1.cells = r2.cells) :
    r1.render = r2.render := by
  simp [Row.render, h]

/-- Claim C9 witness: rows with the same single cell but opposite flag
settings render to the same string. -/
theorem row_render_flags_independent_witness :
    (Row.mk [⟨"a"⟩] true false).render = (Row.mk [⟨"a"⟩] false true).render :=
  row_render_flags_independent (Row.mk [⟨"a"⟩] true false)
    (Row.mk [⟨"a"⟩] false true) rfl

/-- Claim C10: row rendering is not injective — the empty row and the row
with one empty-string cell are distinct yet both render to `" \\"`. -/
theorem row_render_not_injective :
    (∃ r1 r2 : Row, r1 ≠ r2 ∧ r1.render = r2.render) ∧
    Row.mk [] false false ≠ Row.mk [⟨""⟩] false false ∧
    (Row.mk [] false false).render = " \\\\" ∧
    (Row.mk [⟨""⟩] false false).render = " \\\\" := by
  refine ⟨⟨Row.mk [] false false, Row.mk [⟨""⟩] false false,
    by decide, by decide⟩, by decide, rfl, by decide⟩
